import Mathlib

/-!
Verification development for the claude-flow swarm orchestration slice of the
repository (server/routes/claude-flow.js together with the `swarmDb` layer of
server/database/db.js and server/database/swarm-schema.sql).

The database tables are modelled as lists of rows; a SQL `UPDATE ... WHERE`
statement becomes a `List.map` that rewrites every matching row, and its
`changes > 0` result becomes `List.any` over the match predicate.  Timestamps
(`new Date().toISOString()`, `Date.now()`, `CURRENT_TIMESTAMP`) are modelled as
a `Nat` parameter `now` supplied by the caller; `NULL`able columns are
`Option`.  JavaScript numbers in the agent-metrics arithmetic are modelled as
exact rationals `ℚ`.  Statuses are kept as strings, exactly as the JS code
compares them.
-/

namespace ClaudeFlow

/-- Terminality test used by `swarmDb.updateSwarmStatus` (db.js):
`status === 'completed' || status === 'failed' || status === 'aborted'`. -/
def isTerminalStatus (status : String) : Bool :=
  status == "completed" || status == "failed" || status == "aborted"

/-- A row of the `swarm_sessions` table (swarm-schema.sql).  `nspace` is the
`namespace` column (renamed: `namespace` is a Lean keyword). -/
structure SessionRow where
  session_id : String
  user_id : Nat
  project_name : String
  project_path : String
  swarm_type : String
  task_description : String
  status : String
  nspace : String
  created_at : Nat
  completed_at : Option Nat
  error_message : Option String
  deriving DecidableEq, Repr

/-- The column assignments of the `UPDATE swarm_sessions SET status = ?,
error_message = ?, completed_at = ? WHERE session_id = ?` statement in
`swarmDb.updateSwarmStatus`, applied to one row.  `completed_at` is the
JS value `(status === 'completed' || 'failed' || 'aborted') ? now : null`. -/
def updateSessionRow (now : Nat) (status : String) (errorMessage : Option String)
    (r : SessionRow) : SessionRow :=
  { r with
    status := status
    error_message := errorMessage
    completed_at := if isTerminalStatus status then some now else none }

/-- `swarmDb.updateSwarmStatus(sessionId, status, errorMessage = null)`:
runs the UPDATE over the table and returns the new table together with
`result.changes > 0`. -/
def updateSwarmStatus (tbl : List SessionRow) (now : Nat) (sessionId status : String)
    (errorMessage : Option String) : List SessionRow × Bool :=
  (tbl.map fun r =>
      if r.session_id == sessionId then updateSessionRow now status errorMessage r else r,
   tbl.any fun r => r.session_id == sessionId)

/-- A row of the `swarm_workers` table (swarm-schema.sql). -/
structure WorkerRow where
  worker_id : String
  swarm_session_id : Nat
  agent_type : String
  agent_name : String
  task : String
  status : String
  started_at : Option Nat
  completed_at : Option Nat
  input_tokens : Int
  output_tokens : Int
  total_tokens : Int
  result : Option String
  error_message : Option String
  deriving DecidableEq, Repr

/-- The column assignments of `swarmDb.updateWorkerStatus` applied to one row:
`SET status = ?, result = ?, error_message = ?, started_at =
COALESCE(started_at, ?), completed_at = ?` with the JS bindings
`startedAt = status === 'active' ? now : null` and
`completedAt = (status === 'completed' || status === 'failed') ? now : null`. -/
def updateWorkerRow (now : Nat) (status : String) (result errorMessage : Option String)
    (r : WorkerRow) : WorkerRow :=
  let startedAt : Option Nat := if status == "active" then some now else none
  let completedAt : Option Nat :=
    if status == "completed" || status == "failed" then some now else none
  { r with
    status := status
    result := result
    error_message := errorMessage
    started_at := r.started_at.orElse fun _ => startedAt
    completed_at := completedAt }

/-- `swarmDb.updateWorkerStatus(workerId, status, result = null, errorMessage = null)`. -/
def updateWorkerStatus (tbl : List WorkerRow) (now : Nat) (workerId status : String)
    (result errorMessage : Option String) : List WorkerRow × Bool :=
  (tbl.map fun r =>
      if r.worker_id == workerId then updateWorkerRow now status result errorMessage r else r,
   tbl.any fun r => r.worker_id == workerId)

/-- `swarmDb.updateWorkerTokens(workerId, inputTokens, outputTokens)`:
`totalTokens = inputTokens + outputTokens`, then `SET input_tokens = ?,
output_tokens = ?, total_tokens = ? WHERE worker_id = ?`. -/
def updateWorkerTokens (tbl : List WorkerRow) (workerId : String)
    (inputTokens outputTokens : Int) : List WorkerRow × Bool :=
  let totalTokens := inputTokens + outputTokens
  (tbl.map fun r =>
      if r.worker_id == workerId then
        { r with
          input_tokens := inputTokens
          output_tokens := outputTokens
          total_tokens := totalTokens }
      else r,
   tbl.any fun r => r.worker_id == workerId)

/-- A row of the `agent_metrics` table (swarm-schema.sql).  The two running
averages are JS numbers; they are modelled as exact rationals. -/
structure AgentMetricRow where
  user_id : Nat
  agent_type : String
  usage_count : Nat
  total_input_tokens : Int
  total_output_tokens : Int
  total_tokens : Int
  avg_completion_time_ms : ℚ
  success_rate : ℚ
  deriving DecidableEq, Repr

/-- `swarmDb.updateAgentMetrics(userId, agentType, inputTokens, outputTokens,
completionTimeMs, success)`: if a row for `(userId, agentType)` exists, the
UPDATE recomputes `newAvgTime = ((existing.avg_completion_time_ms *
existing.usage_count) + completionTimeMs) / newUsageCount` and
`newSuccessRate = (existing.success_rate * existing.usage_count +
(success ? 1 : 0)) / newUsageCount`; otherwise a fresh row is inserted with
`usage_count = 1` and `success_rate = success ? 1.0 : 0.0`. -/
def updateAgentMetrics (tbl : List AgentMetricRow) (userId : Nat) (agentType : String)
    (inputTokens outputTokens : Int) (completionTimeMs : ℚ) (success : Bool) :
    List AgentMetricRow :=
  let totalTokens := inputTokens + outputTokens
  match tbl.find? (fun r => r.user_id == userId && r.agent_type == agentType) with
  | some existing =>
    let newUsageCount := existing.usage_count + 1
    let newTotalInputTokens := existing.total_input_tokens + inputTokens
    let newTotalOutputTokens := existing.total_output_tokens + outputTokens
    let newTotalTokens := existing.total_tokens + totalTokens
    let newAvgTime : ℚ :=
      ((existing.avg_completion_time_ms * existing.usage_count) + completionTimeMs) / newUsageCount
    let successCount : ℚ :=
      existing.success_rate * existing.usage_count + (if success then 1 else 0)
    let newSuccessRate : ℚ := successCount / newUsageCount
    tbl.map fun r =>
      if r.user_id == userId && r.agent_type == agentType then
        { r with
          usage_count := newUsageCount
          total_input_tokens := newTotalInputTokens
          total_output_tokens := newTotalOutputTokens
          total_tokens := newTotalTokens
          avg_completion_time_ms := newAvgTime
          success_rate := newSuccessRate }
      else r
  | none =>
    tbl ++ [{ user_id := userId, agent_type := agentType, usage_count := 1,
              total_input_tokens := inputTokens, total_output_tokens := outputTokens,
              total_tokens := totalTokens, avg_completion_time_ms := completionTimeMs,
              success_rate := if success then 1 else 0 }]

/-- One call to `updateAgentMetrics`, for iterating update sequences. -/
structure MetricsUpdate where
  userId : Nat
  agentType : String
  inputTokens : Int
  outputTokens : Int
  completionTimeMs : ℚ
  success : Bool
  deriving DecidableEq, Repr

/-- Apply a sequence of `updateAgentMetrics` calls to a table. -/
def applyMetricsUpdates (ops : List MetricsUpdate) (tbl : List AgentMetricRow) :
    List AgentMetricRow :=
  ops.foldl
    (fun t op =>
      updateAgentMetrics t op.userId op.agentType op.inputTokens op.outputTokens
        op.completionTimeMs op.success)
    tbl

/-! ### Route handlers (server/routes/claude-flow.js)

Each handler is modelled as a pure function from the relevant request fields
and the current table state to the response and the new state.  Server-sent
events written by `sendEvent(type, data)` are collected in a list; `sendEvent`
writes only when `streaming` is true. -/

/-- A server-sent event frame written by `sendEvent` in `POST /swarm/execute`. -/
inductive SSEvent where
  | statusEv (message sessionId : String)
  | output (message sessionId : String)
  | error (message sessionId : String)
  | completed (message sessionId : String) (duration : Nat) (output : String)
  | failed (message sessionId : String) (duration : Nat) (error : String)
  deriving DecidableEq, Repr

/-- The error text used when `credentialsDb.getActiveCredential` returns no
Claude API key in `POST /swarm/execute`. -/
def configErrorMsg : String :=
  "Claude API key not configured. Please add your Claude API key in settings."

/-- Outcome of the synchronous part of `POST /swarm/execute`: the HTTP status
of the direct JSON response (200 when an event stream is opened), the events
written so far, and — when control reached the `spawn('npx', args, ...)`
call — the argument list and working directory given to it.  `spawnArgs =
none` means no subprocess was started. -/
structure ExecOutcome where
  httpStatus : Nat
  events : List SSEvent
  spawnArgs : Option (List String)
  spawnCwd : Option String
  deriving DecidableEq, Repr

/-- The `POST /swarm/execute` handler up to and including the spawn decision:
validates `sessionId`/`taskDescription` (JS falsiness of a missing or empty
string is modelled as `""`), looks the session up, emits the initial status
event, fetches the owner's active credential, and only when a credential is
present builds `args = ['claude-flow@alpha', 'swarm', taskDescription,
'--claude']` (plus `'--hive-mind'` for that swarm type) and spawns. -/
def executeSwarm (sessions : List SessionRow) (credential : Option String)
    (sessionId taskDescription swarmType : String) (streaming : Bool) : ExecOutcome :=
  if sessionId == "" || taskDescription == "" then
    { httpStatus := 400, events := [], spawnArgs := none, spawnCwd := none }
  else
    match sessions.find? (fun r => r.session_id == sessionId) with
    | none => { httpStatus := 404, events := [], spawnArgs := none, spawnCwd := none }
    | some sess =>
      let ev0 : List SSEvent :=
        if streaming then [SSEvent.statusEv "Initializing swarm..." sessionId] else []
      match credential with
      | none =>
        { httpStatus := if streaming then 200 else 400
          events := ev0 ++ (if streaming then [SSEvent.error configErrorMsg sessionId] else [])
          spawnArgs := none
          spawnCwd := none }
      | some _ =>
        let args :=
          ["claude-flow@alpha", "swarm", taskDescription, "--claude"]
            ++ (if swarmType == "hive-mind" then ["--hive-mind"] else [])
        { httpStatus := 200, events := ev0, spawnArgs := some args,
          spawnCwd := some sess.project_path }

/-- The `claudeFlowProcess.on('close', (code) => ...)` handler of
`POST /swarm/execute`: exit code 0 updates the session to `completed` and
emits the `completed` event; any other code updates it to `failed` with the
accumulated stderr as the error message and emits the `failed` event. -/
def onSwarmClose (sessions : List SessionRow) (now : Nat) (sessionId : String)
    (code : Int) (stdoutAcc stderrAcc : String) (duration : Nat) (streaming : Bool) :
    List SessionRow × List SSEvent :=
  if code == 0 then
    ((updateSwarmStatus sessions now sessionId "completed" none).1,
     if streaming then
       [SSEvent.completed "Swarm completed successfully" sessionId duration stdoutAcc]
     else [])
  else
    ((updateSwarmStatus sessions now sessionId "failed" (some stderrAcc)).1,
     if streaming then
       [SSEvent.failed "Swarm execution failed" sessionId duration stderrAcc]
     else [])

/-- `swarmDb.createSwarmSession(userId, sessionId, projectName, projectPath,
swarmType, taskDescription, metadata)`: inserts a row whose namespace is
`projectName + '-' + Date.now()`; `status` and `created_at` take their schema
defaults (`'active'`, current time), `completed_at`/`error_message` are NULL. -/
def createSwarmSession (sessions : List SessionRow) (now userId : Nat)
    (sessionId projectName projectPath swarmType taskDescription : String) :
    List SessionRow :=
  let nspace := projectName ++ "-" ++ toString now
  sessions ++
    [{ session_id := sessionId, user_id := userId, project_name := projectName,
       project_path := projectPath, swarm_type := swarmType,
       task_description := taskDescription, status := "active", nspace := nspace,
       created_at := now, completed_at := none, error_message := none }]

/-- Outcome of `POST /swarm/create`: HTTP status and the table afterwards. -/
structure CreateOutcome where
  httpStatus : Nat
  sessions : List SessionRow
  deriving DecidableEq, Repr

/-- The `POST /swarm/create` handler: returns 400 before touching the store
when `projectName`, `projectPath` or `taskDescription` is missing or empty
(JS falsiness modelled as `""`), otherwise inserts via `createSwarmSession`. -/
def createSwarmHandler (sessions : List SessionRow) (now userId : Nat)
    (sessionId projectName projectPath taskDescription swarmType : String) :
    CreateOutcome :=
  if projectName == "" || projectPath == "" || taskDescription == "" then
    { httpStatus := 400, sessions := sessions }
  else
    { httpStatus := 200
      sessions := createSwarmSession sessions now userId sessionId projectName
        projectPath swarmType taskDescription }

/-- The `POST /swarm/abort/:sessionId` handler: 404 when the session is
absent; otherwise `updateSwarmStatus(sessionId, 'aborted')` (with the default
`errorMessage = null`) and a success response carrying status `'aborted'`.
Returns (new table, HTTP status, the `status` field of the JSON response). -/
def abortSwarmHandler (sessions : List SessionRow) (now : Nat) (sessionId : String) :
    List SessionRow × Nat × Option String :=
  match sessions.find? (fun r => r.session_id == sessionId) with
  | none => (sessions, 404, none)
  | some _ =>
    ((updateSwarmStatus sessions now sessionId "aborted" none).1, 200, some "aborted")

/-! ### Concrete rows used by witnesses and counterexamples -/

/-- A session row that has already reached the terminal status `completed`. -/
def sampleCompletedSession : SessionRow :=
  { session_id := "s1", user_id := 1, project_name := "acme", project_path := "/p",
    swarm_type := "quick", task_description := "fix bug", status := "completed",
    nspace := "acme-1", created_at := 1, completed_at := some 5, error_message := none }

/-- A freshly created session row, still `active`. -/
def sampleActiveSession : SessionRow :=
  { sampleCompletedSession with status := "active", completed_at := none }

/-! ### Helper lemmas about `updateSwarmStatus` -/

/-- Every row of the updated table that matches the session id carries exactly
the column values written by the UPDATE statement. -/
theorem fields_of_mem_updateSwarmStatus (tbl : List SessionRow) (now : Nat)
    (sessionId status : String) (err : Option String) (r : SessionRow)
    (hr : r ∈ (updateSwarmStatus tbl now sessionId status err).1)
    (hid : (r.session_id == sessionId) = true) :
    r.status = status ∧ r.error_message = err ∧
      r.completed_at = if isTerminalStatus status then some now else none := by
  simp only [updateSwarmStatus, List.mem_map] at hr
  obtain ⟨x, hx, hfx⟩ := hr
  by_cases h : (x.session_id == sessionId) = true
  · rw [if_pos h] at hfx
    subst hfx
    exact ⟨rfl, rfl, rfl⟩
  · rw [if_neg h] at hfx
    subst hfx
    exact absurd hid h

/-- A row matched by the WHERE clause is rewritten by `updateSessionRow` and
the result is in the updated table. -/
theorem updateSessionRow_mem_updateSwarmStatus (tbl : List SessionRow) (now : Nat)
    (sessionId status : String) (err : Option String) (x : SessionRow) (hx : x ∈ tbl)
    (hid : (x.session_id == sessionId) = true) :
    updateSessionRow now status err x ∈ (updateSwarmStatus tbl now sessionId status err).1 := by
  simp only [updateSwarmStatus, List.mem_map]
  exact ⟨x, hx, by rw [if_pos hid]⟩

/-! ### Claims C1-C3: session status transitions -/

/-- Claim C1 counterexample: a session whose status is already terminal
(`completed`) is still overwritten by a subsequent abort — the status changes
to `aborted`, so terminal statuses are not sticky. -/
theorem abort_changes_terminal_status :
    isTerminalStatus sampleCompletedSession.status = true ∧
    ((abortSwarmHandler [sampleCompletedSession] 9 "s1").1.map SessionRow.status
      = ["aborted"]) ∧
    sampleCompletedSession.status ≠ "aborted" := by decide

/-- Claim C1 (amended): status transitions are NOT monotonic — `setStatus`
and abort overwrite the status unconditionally, terminal or not; but the
invariant that `completed_at` is non-null iff the status is terminal is
preserved by every `updateSwarmStatus` call. -/
theorem session_completed_iff_terminal_not_monotonic
    (tbl : List SessionRow) (now : Nat) (sessionId status : String) (err : Option String)
    (hinv : ∀ r ∈ tbl, r.completed_at.isSome = isTerminalStatus r.status) :
    (∀ r ∈ (updateSwarmStatus tbl now sessionId status err).1,
        r.completed_at.isSome = isTerminalStatus r.status) ∧
    (∀ x ∈ tbl, (x.session_id == sessionId) = true →
        updateSessionRow now status err x ∈ (updateSwarmStatus tbl now sessionId status err).1 ∧
        (updateSessionRow now status err x).status = status) := by
  constructor
  · intro r hr
    simp only [updateSwarmStatus, List.mem_map] at hr
    obtain ⟨x, hx, hfx⟩ := hr
    by_cases h : (x.session_id == sessionId) = true
    · rw [if_pos h] at hfx
      subst hfx
      by_cases ht : isTerminalStatus status = true
      · simp [updateSessionRow, ht]
      · simp [updateSessionRow, ht]
    · rw [if_neg h] at hfx
      subst hfx
      exact hinv x hx
  · intro x hx hid
    exact ⟨updateSessionRow_mem_updateSwarmStatus tbl now sessionId status err x hx hid, rfl⟩

/-- Witness for the amended C1 theorem on a concrete one-row table satisfying
the `completed_at` invariant. -/
theorem session_completed_iff_terminal_not_monotonic_witness :
    (∀ r ∈ (updateSwarmStatus [sampleCompletedSession] 9 "s1" "aborted" none).1,
        r.completed_at.isSome = isTerminalStatus r.status) ∧
    (∀ x ∈ [sampleCompletedSession], (x.session_id == "s1") = true →
        updateSessionRow 9 "aborted" none x ∈
          (updateSwarmStatus [sampleCompletedSession] 9 "s1" "aborted" none).1 ∧
        (updateSessionRow 9 "aborted" none x).status = "aborted") :=
  session_completed_iff_terminal_not_monotonic [sampleCompletedSession] 9 "s1" "aborted" none
    (by decide)

/-- Claim C2 counterexample: calling `setStatus` twice with `completed` at
times 5 and then 9 leaves `completed_at = 9`, not the value 5 written by the
first call — the timestamp is overwritten, not first-write-wins. -/
theorem setStatus_twice_overwrites_completed_at :
    ((updateSwarmStatus [sampleActiveSession] 5 "s1" "completed" none).1.map
        SessionRow.completed_at = [some 5]) ∧
    ((updateSwarmStatus
        (updateSwarmStatus [sampleActiveSession] 5 "s1" "completed" none).1
        9 "s1" "completed" none).1.map SessionRow.completed_at = [some 9]) ∧
    (some 9 : Option Nat) ≠ some 5 := by decide

/-- Claim C2 (amended): calling `setStatus` twice with the same terminal
status sets `completed_at` to the time of the SECOND call (last-write-wins);
it equals the first write only when both calls carry the same timestamp. -/
theorem setStatus_twice_last_write_wins
    (tbl : List SessionRow) (t1 t2 : Nat) (sessionId status : String)
    (hterm : isTerminalStatus status = true) :
    ∀ r ∈ (updateSwarmStatus (updateSwarmStatus tbl t1 sessionId status none).1
              t2 sessionId status none).1,
      (r.session_id == sessionId) = true → r.completed_at = some t2 := by
  intro r hr hid
  have h := fields_of_mem_updateSwarmStatus _ t2 sessionId status none r hr hid
  rw [h.2.2, if_pos hterm]

/-- Witness for the amended C2 theorem at concrete times 5 and 9: the row
produced by the two successive calls carries `completed_at = 9`. -/
theorem setStatus_twice_last_write_wins_witness :
    (updateSessionRow 9 "completed" none
        (updateSessionRow 5 "completed" none sampleActiveSession)).completed_at = some 9 :=
  setStatus_twice_last_write_wins [sampleActiveSession] 5 9 "s1" "completed" (by decide)
    (updateSessionRow 9 "completed" none
      (updateSessionRow 5 "completed" none sampleActiveSession))
    (by decide) (by decide)

/-- Claim C3 counterexample: `setStatus` with the non-terminal status
`active` does not leave timestamps untouched — it resets a previously set
`completed_at` to NULL. -/
theorem setStatus_nonterminal_clears_completed_at :
    sampleCompletedSession.completed_at = some 5 ∧
    isTerminalStatus "active" = false ∧
    ((updateSwarmStatus [sampleCompletedSession] 9 "s1" "active" none).1.map
        SessionRow.completed_at = [none]) := by decide

/-- Claim C3 (amended): `setStatus` sets `completed_at` to the current time
when the new status is terminal and to NULL when it is not (only `created_at`
is left unchanged), and reports zero rows affected (`false`) when no row with
the given id exists. -/
theorem setStatus_spec_amended
    (tbl : List SessionRow) (now : Nat) (sessionId status : String) (err : Option String) :
    (∀ x ∈ tbl, (x.session_id == sessionId) = true →
        updateSessionRow now status err x ∈ (updateSwarmStatus tbl now sessionId status err).1 ∧
        (updateSessionRow now status err x).completed_at =
          (if isTerminalStatus status then some now else none) ∧
        (updateSessionRow now status err x).created_at = x.created_at) ∧
    ((∀ x ∈ tbl, (x.session_id == sessionId) = false) →
        (updateSwarmStatus tbl now sessionId status err).2 = false) := by
  constructor
  · intro x hx hid
    exact ⟨updateSessionRow_mem_updateSwarmStatus tbl now sessionId status err x hx hid,
           rfl, rfl⟩
  · intro hnone
    simp only [updateSwarmStatus, List.any_eq_false]
    intro x hx
    simp [hnone x hx]

/-- Witness for the amended C3 theorem: a matched terminal update on a
one-row table, and the zero-rows-affected report on a mismatching id. -/
theorem setStatus_spec_amended_witness :
    ((∀ x ∈ [sampleCompletedSession], (x.session_id == "s1") = true →
        updateSessionRow 9 "active" none x ∈
          (updateSwarmStatus [sampleCompletedSession] 9 "s1" "active" none).1 ∧
        (updateSessionRow 9 "active" none x).completed_at =
          (if isTerminalStatus "active" then some 9 else none) ∧
        (updateSessionRow 9 "active" none x).created_at = x.created_at) ∧
     ((∀ x ∈ [sampleCompletedSession], (x.session_id == "s1") = false) →
        (updateSwarmStatus [sampleCompletedSession] 9 "s1" "active" none).2 = false)) ∧
    (∀ x ∈ [sampleCompletedSession], (x.session_id == "missing") = false) ∧
    (updateSwarmStatus [sampleCompletedSession] 9 "missing" "active" none).2 = false :=
  ⟨setStatus_spec_amended [sampleCompletedSession] 9 "s1" "active" none,
   by decide,
   (setStatus_spec_amended [sampleCompletedSession] 9 "missing" "active" none).2 (by decide)⟩

/-! ### Claims C4-C5: worker store -/

/-- A freshly created worker row, `pending` with no timestamps. -/
def samplePendingWorker : WorkerRow :=
  { worker_id := "w1", swarm_session_id := 1, agent_type := "debugger",
    agent_name := "Debugger", task := "fix", status := "pending",
    started_at := none, completed_at := none, input_tokens := 0, output_tokens := 0,
    total_tokens := 0, result := none, error_message := none }

/-- Claim C4: `updateWorkerStatus` sets `started_at` only on the first
transition into `active` (`COALESCE(started_at, ?)` never overwrites an
existing value), and `completed_at` receives a value exactly when the new
status is `completed` or `failed`. -/
theorem worker_setStatus_spec
    (tbl : List WorkerRow) (now : Nat) (workerId status : String) (res err : Option String)
    (x : WorkerRow) (hx : x ∈ tbl) (hid : (x.worker_id == workerId) = true) :
    updateWorkerRow now status res err x ∈
      (updateWorkerStatus tbl now workerId status res err).1 ∧
    ((x.started_at = none ∧ status = "active") →
        (updateWorkerRow now status res err x).started_at = some now) ∧
    (∀ t, x.started_at = some t →
        (updateWorkerRow now status res err x).started_at = some t) ∧
    ((updateWorkerRow now status res err x).completed_at = some now ↔
        (status = "completed" ∨ status = "failed")) := by
  refine ⟨?_, ?_, ?_, ?_⟩
  · simp only [updateWorkerStatus, List.mem_map]
    exact ⟨x, hx, by rw [if_pos hid]⟩
  · rintro ⟨h1, rfl⟩
    simp [updateWorkerRow, h1, Option.orElse]
  · intro t ht
    simp [updateWorkerRow, ht, Option.orElse]
  · by_cases hc : (status == "completed" || status == "failed") = true
    · have he : status = "completed" ∨ status = "failed" := by
        simpa [Bool.or_eq_true, beq_iff_eq] using hc
      simp [updateWorkerRow, hc, he]
    · have he : ¬(status = "completed" ∨ status = "failed") := by
        simpa [Bool.or_eq_true, beq_iff_eq] using hc
      simp [updateWorkerRow, hc, he]

/-- Witness for C4: first transition of a pending worker into `active` at
time 7 records `started_at = 7` and leaves `completed_at` unset. -/
theorem worker_setStatus_spec_witness :
    updateWorkerRow 7 "active" none none samplePendingWorker ∈
      (updateWorkerStatus [samplePendingWorker] 7 "w1" "active" none none).1 ∧
    ((samplePendingWorker.started_at = none ∧ "active" = "active") →
        (updateWorkerRow 7 "active" none none samplePendingWorker).started_at = some 7) ∧
    (∀ t, samplePendingWorker.started_at = some t →
        (updateWorkerRow 7 "active" none none samplePendingWorker).started_at = some t) ∧
    ((updateWorkerRow 7 "active" none none samplePendingWorker).completed_at = some 7 ↔
        ("active" = "completed" ∨ "active" = "failed")) :=
  worker_setStatus_spec [samplePendingWorker] 7 "w1" "active" none none samplePendingWorker
    (by decide) (by decide)

/-- Claim C5: after `updateWorkerTokens(workerId, inputTokens, outputTokens)`,
the matched row stores exactly the two inputs and a total recomputed as their
sum, so `total_tokens = input_tokens + output_tokens` holds. -/
theorem worker_setTokens_spec
    (tbl : List WorkerRow) (workerId : String) (inputTokens outputTokens : Int)
    (r : WorkerRow) (hr : r ∈ (updateWorkerTokens tbl workerId inputTokens outputTokens).1)
    (hid : (r.worker_id == workerId) = true) :
    r.input_tokens = inputTokens ∧ r.output_tokens = outputTokens ∧
    r.total_tokens = r.input_tokens + r.output_tokens := by
  simp only [updateWorkerTokens, List.mem_map] at hr
  obtain ⟨x, hx, hfx⟩ := hr
  by_cases h : (x.worker_id == workerId) = true
  · rw [if_pos h] at hfx
    subst hfx
    exact ⟨rfl, rfl, rfl⟩
  · rw [if_neg h] at hfx
    subst hfx
    exact absurd hid h

/-- Witness for C5 at concrete token counts 3 and 5. -/
theorem worker_setTokens_spec_witness :
    ({ samplePendingWorker with
        input_tokens := 3, output_tokens := 5, total_tokens := 8 } : WorkerRow).input_tokens = 3 ∧
    ({ samplePendingWorker with
        input_tokens := 3, output_tokens := 5, total_tokens := 8 } : WorkerRow).output_tokens = 5 ∧
    ({ samplePendingWorker with
        input_tokens := 3, output_tokens := 5, total_tokens := 8 } : WorkerRow).total_tokens =
      ({ samplePendingWorker with
          input_tokens := 3, output_tokens := 5, total_tokens := 8 } : WorkerRow).input_tokens +
      ({ samplePendingWorker with
          input_tokens := 3, output_tokens := 5, total_tokens := 8 } : WorkerRow).output_tokens :=
  worker_setTokens_spec [samplePendingWorker] "w1" 3 5
    { samplePendingWorker with input_tokens := 3, output_tokens := 5, total_tokens := 8 }
    (by decide) (by decide)

/-! ### Claim C6: agent metrics -/

/-- `updateAgentMetrics` keeps every `success_rate` in the table inside
`[0, 1]`: the fresh-row path writes 1 or 0, and the update path writes the
weighted average `(rate * n + b) / (n + 1)` with `b ∈ {0, 1}`, which is
bounded by its inputs. -/
theorem metricInv_updateAgentMetrics (tbl : List AgentMetricRow) (userId : Nat)
    (agentType : String) (iT oT : Int) (ct : ℚ) (s : Bool)
    (h : ∀ r ∈ tbl, 0 ≤ r.success_rate ∧ r.success_rate ≤ 1) :
    ∀ r ∈ updateAgentMetrics tbl userId agentType iT oT ct s,
      0 ≤ r.success_rate ∧ r.success_rate ≤ 1 := by
  intro r hr
  unfold updateAgentMetrics at hr
  split at hr
  · rename_i e hfind
    have he := h e (List.mem_of_find?_eq_some hfind)
    simp only [List.mem_map] at hr
    obtain ⟨x, hx, hfx⟩ := hr
    by_cases hc : (x.user_id == userId && x.agent_type == agentType) = true
    · rw [if_pos hc] at hfx
      subst hfx
      have hn : (0:ℚ) < ((e.usage_count + 1 : ℕ) : ℚ) := by positivity
      have hb0 : (0:ℚ) ≤ (if s then 1 else 0) := by cases s <;> norm_num
      have hb1 : ((if s then 1 else 0) : ℚ) ≤ 1 := by cases s <;> norm_num
      have hmul0 : (0:ℚ) ≤ e.success_rate * e.usage_count :=
        mul_nonneg he.1 (by positivity)
      have hmul1 : e.success_rate * (e.usage_count : ℚ) ≤ (e.usage_count : ℚ) := by
        calc e.success_rate * (e.usage_count : ℚ)
            ≤ 1 * (e.usage_count : ℚ) :=
              mul_le_mul_of_nonneg_right he.2 (by positivity)
          _ = (e.usage_count : ℚ) := one_mul _
      constructor
      · exact div_nonneg (by linarith) (le_of_lt hn)
      · rw [div_le_one hn]
        push_cast
        linarith
    · rw [if_neg hc] at hfx
      subst hfx
      exact h x hx
  · rename_i hfind
    rcases List.mem_append.mp hr with h1 | h1
    · exact h r h1
    · rcases List.mem_singleton.mp h1 with rfl
      cases s <;> norm_num

/-- Starting from an arbitrary table whose success rates lie in `[0, 1]`,
any sequence of `updateAgentMetrics` calls preserves the bound. -/
theorem metricInv_applyMetricsUpdates (ops : List MetricsUpdate)
    (tbl : List AgentMetricRow)
    (h : ∀ r ∈ tbl, 0 ≤ r.success_rate ∧ r.success_rate ≤ 1) :
    ∀ r ∈ applyMetricsUpdates ops tbl, 0 ≤ r.success_rate ∧ r.success_rate ≤ 1 := by
  induction ops generalizing tbl with
  | nil => exact h
  | cons op ops ih =>
    exact ih _ (metricInv_updateAgentMetrics tbl op.userId op.agentType op.inputTokens
      op.outputTokens op.completionTimeMs op.success h)

/-- Claim C6: when a metrics row exists, the update recomputes the average
completion time exactly as `(old_avg * old_count + new_value) / new_count`
(and the success rate by the same weighted-average formula), and under any
sequence of updates starting from a fresh (empty) store every recomputed
`success_rate` stays within `[0, 1]`. -/
theorem agent_metrics_spec
    (tbl : List AgentMetricRow) (userId : Nat) (agentType : String)
    (iT oT : Int) (ct : ℚ) (s : Bool) (e : AgentMetricRow)
    (hfind : tbl.find? (fun m => m.user_id == userId && m.agent_type == agentType) = some e)
    (ops : List MetricsUpdate) (r : AgentMetricRow)
    (hr : r ∈ applyMetricsUpdates ops []) :
    (∀ r' ∈ updateAgentMetrics tbl userId agentType iT oT ct s,
        (r'.user_id == userId && r'.agent_type == agentType) = true →
        r'.avg_completion_time_ms =
          (e.avg_completion_time_ms * e.usage_count + ct) / (e.usage_count + 1) ∧
        r'.success_rate =
          (e.success_rate * e.usage_count + (if s then 1 else 0)) / (e.usage_count + 1)) ∧
    (0 ≤ r.success_rate ∧ r.success_rate ≤ 1) := by
  constructor
  · intro r' hr' hc'
    unfold updateAgentMetrics at hr'
    split at hr'
    · rename_i e' hfind'
      rw [hfind] at hfind'
      obtain rfl : e' = e := (Option.some.injEq _ _ ▸ hfind').symm ▸ rfl
      simp only [List.mem_map] at hr'
      obtain ⟨x, hx, hfx⟩ := hr'
      by_cases hc : (x.user_id == userId && x.agent_type == agentType) = true
      · rw [if_pos hc] at hfx
        subst hfx
        constructor
        · push_cast
          ring_nf
        · push_cast
          ring_nf
      · rw [if_neg hc] at hfx
        subst hfx
        exact absurd hc' hc
    · rename_i hfind'
      rw [hfind] at hfind'
      exact absurd hfind' (by simp)
  · exact metricInv_applyMetricsUpdates ops [] (by simp) r hr

/-- An existing metrics row with one prior use. -/
def sampleMetricRow : AgentMetricRow :=
  { user_id := 1, agent_type := "debugger", usage_count := 1, total_input_tokens := 4,
    total_output_tokens := 6, total_tokens := 10, avg_completion_time_ms := 10,
    success_rate := 1 }

/-- One concrete `updateAgentMetrics` call. -/
def sampleMetricsUpdate : MetricsUpdate :=
  { userId := 1, agentType := "debugger", inputTokens := 2, outputTokens := 3,
    completionTimeMs := 5, success := false }

/-- The row `sampleMetricsUpdate` inserts into an empty store. -/
def sampleFreshMetricRow : AgentMetricRow :=
  { user_id := 1, agent_type := "debugger", usage_count := 1, total_input_tokens := 2,
    total_output_tokens := 3, total_tokens := 5, avg_completion_time_ms := 5,
    success_rate := 0 }

/-- Witness for C6 on a one-row table and a one-call update sequence. -/
theorem agent_metrics_spec_witness :
    (∀ r' ∈ updateAgentMetrics [sampleMetricRow] 1 "debugger" 2 3 5 false,
        (r'.user_id == 1 && r'.agent_type == "debugger") = true →
        r'.avg_completion_time_ms =
          (sampleMetricRow.avg_completion_time_ms * sampleMetricRow.usage_count + 5) /
            (sampleMetricRow.usage_count + 1) ∧
        r'.success_rate =
          (sampleMetricRow.success_rate * sampleMetricRow.usage_count +
            (if false then 1 else 0)) / (sampleMetricRow.usage_count + 1)) ∧
    (0 ≤ sampleFreshMetricRow.success_rate ∧ sampleFreshMetricRow.success_rate ≤ 1) :=
  agent_metrics_spec [sampleMetricRow] 1 "debugger" 2 3 5 false sampleMetricRow
    (by decide) [sampleMetricsUpdate] sampleFreshMetricRow (by decide)

/-! ### Claims C7-C10: route handlers -/

/-- Claim C7: with no active credential configured for the owner,
`POST /swarm/execute` never reaches the spawn call (no subprocess arguments or
working directory are ever produced), and when the request is otherwise valid
it fails with the configuration error — as a streamed `error` event in
streaming mode and as an HTTP 400 otherwise. -/
theorem execute_credential_check_before_spawn
    (sessions : List SessionRow) (sessionId taskDescription swarmType : String)
    (streaming : Bool) :
    (executeSwarm sessions none sessionId taskDescription swarmType streaming).spawnArgs
      = none ∧
    (executeSwarm sessions none sessionId taskDescription swarmType streaming).spawnCwd
      = none ∧
    ((sessionId == "") = false → (taskDescription == "") = false →
      (sessions.find? (fun r => r.session_id == sessionId)).isSome = true →
      (if streaming
       then SSEvent.error configErrorMsg sessionId ∈
         (executeSwarm sessions none sessionId taskDescription swarmType streaming).events
       else (executeSwarm sessions none sessionId taskDescription swarmType
         streaming).httpStatus = 400)) := by
  refine ⟨?_, ?_, ?_⟩
  · unfold executeSwarm
    split
    · rfl
    · split <;> rfl
  · unfold executeSwarm
    split
    · rfl
    · split <;> rfl
  · intro h1 h2 h3
    unfold executeSwarm
    cases hf : sessions.find? (fun r => r.session_id == sessionId) with
    | none => rw [hf] at h3; simp at h3
    | some sess =>
      rw [if_neg (show ¬((sessionId == "" || taskDescription == "") = true) by
        simp [h1, h2])]
      cases streaming <;> simp

/-- Witness for C7: a valid streaming request whose owner has no credential
emits the configuration error and spawns nothing. -/
theorem execute_credential_check_before_spawn_witness :
    (executeSwarm [sampleActiveSession] none "s1" "fix bug" "quick" true).spawnArgs = none ∧
    (executeSwarm [sampleActiveSession] none "s1" "fix bug" "quick" true).spawnCwd = none ∧
    ((("s1" : String) == "") = false → (("fix bug" : String) == "") = false →
      ([sampleActiveSession].find? (fun r => r.session_id == "s1")).isSome = true →
      (if true
       then SSEvent.error configErrorMsg "s1" ∈
         (executeSwarm [sampleActiveSession] none "s1" "fix bug" "quick" true).events
       else (executeSwarm [sampleActiveSession] none "s1" "fix bug" "quick"
         true).httpStatus = 400)) :=
  execute_credential_check_before_spawn [sampleActiveSession] "s1" "fix bug" "quick" true

/-- Claim C8: the subprocess close handler maps exit code 0 to session status
`completed` and any nonzero exit code to `failed` with the accumulated stderr
text stored as the session's error message. -/
theorem close_exit_code_to_status
    (sessions : List SessionRow) (now : Nat) (sessionId : String) (code : Int)
    (stdoutAcc stderrAcc : String) (duration : Nat) (streaming : Bool)
    (x : SessionRow) (hx : x ∈ sessions) (hid : (x.session_id == sessionId) = true) :
    (code = 0 →
      updateSessionRow now "completed" none x ∈
        (onSwarmClose sessions now sessionId code stdoutAcc stderrAcc duration streaming).1 ∧
      (updateSessionRow now "completed" none x).status = "completed") ∧
    (code ≠ 0 →
      updateSessionRow now "failed" (some stderrAcc) x ∈
        (onSwarmClose sessions now sessionId code stdoutAcc stderrAcc duration streaming).1 ∧
      (updateSessionRow now "failed" (some stderrAcc) x).status = "failed" ∧
      (updateSessionRow now "failed" (some stderrAcc) x).error_message = some stderrAcc) := by
  constructor
  · intro h0
    subst h0
    unfold onSwarmClose
    rw [if_pos (by decide)]
    exact ⟨updateSessionRow_mem_updateSwarmStatus sessions now sessionId "completed" none
      x hx hid, rfl⟩
  · intro hne
    unfold onSwarmClose
    rw [if_neg (by simp only [beq_iff_eq]; exact hne)]
    exact ⟨updateSessionRow_mem_updateSwarmStatus sessions now sessionId "failed"
      (some stderrAcc) x hx hid, rfl, rfl⟩

/-- Witness for C8 at exit codes 0 and 1 on a one-row table. -/
theorem close_exit_code_to_status_witness :
    ((0 : Int) = 0 →
      updateSessionRow 9 "completed" none sampleActiveSession ∈
        (onSwarmClose [sampleActiveSession] 9 "s1" 0 "done" "" 4 true).1 ∧
      (updateSessionRow 9 "completed" none sampleActiveSession).status = "completed") ∧
    ((0 : Int) ≠ 0 →
      updateSessionRow 9 "failed" (some "") sampleActiveSession ∈
        (onSwarmClose [sampleActiveSession] 9 "s1" 0 "done" "" 4 true).1 ∧
      (updateSessionRow 9 "failed" (some "") sampleActiveSession).status = "failed" ∧
      (updateSessionRow 9 "failed" (some "") sampleActiveSession).error_message = some "") :=
  close_exit_code_to_status [sampleActiveSession] 9 "s1" 0 "done" "" 4 true
    sampleActiveSession (by decide) (by decide)

/-- Claim C9: `POST /swarm/create` with an empty `projectName`, `projectPath`
or `taskDescription` answers 400 and leaves the session table unchanged — no
row is inserted. -/
theorem create_validation_no_insert
    (sessions : List SessionRow) (now userId : Nat)
    (sessionId projectName projectPath taskDescription swarmType : String)
    (hempty : projectName = "" ∨ projectPath = "" ∨ taskDescription = "") :
    (createSwarmHandler sessions now userId sessionId projectName projectPath
        taskDescription swarmType).httpStatus = 400 ∧
    (createSwarmHandler sessions now userId sessionId projectName projectPath
        taskDescription swarmType).sessions = sessions := by
  have hc : (projectName == "" || projectPath == "" || taskDescription == "") = true := by
    rcases hempty with rfl | rfl | rfl <;> simp
  unfold createSwarmHandler
  rw [if_pos hc]
  exact ⟨rfl, rfl⟩

/-- Witness for C9: empty `projectPath` on a one-row table. -/
theorem create_validation_no_insert_witness :
    (createSwarmHandler [sampleActiveSession] 3 1 "s2" "acme" "" "fix bug"
        "quick").httpStatus = 400 ∧
    (createSwarmHandler [sampleActiveSession] 3 1 "s2" "acme" "" "fix bug"
        "quick").sessions = [sampleActiveSession] :=
  create_validation_no_insert [sampleActiveSession] 3 1 "s2" "acme" "" "fix bug" "quick"
    (Or.inr (Or.inl rfl))

/-- Claim C10: for any existing session — its current status unrestricted,
terminal ones included — `POST /swarm/abort/:sessionId` answers 200 with
status `aborted` and unconditionally rewrites the row to status `aborted`,
error message NULL and `completed_at` equal to the fresh current time. -/
theorem abort_success_overwrites
    (sessions : List SessionRow) (now : Nat) (sessionId : String) (s : SessionRow)
    (hfind : sessions.find? (fun r => r.session_id == sessionId) = some s) :
    (abortSwarmHandler sessions now sessionId).2.1 = 200 ∧
    (abortSwarmHandler sessions now sessionId).2.2 = some "aborted" ∧
    (∀ x ∈ sessions, (x.session_id == sessionId) = true →
      updateSessionRow now "aborted" none x ∈ (abortSwarmHandler sessions now sessionId).1 ∧
      (updateSessionRow now "aborted" none x).status = "aborted" ∧
      (updateSessionRow now "aborted" none x).error_message = none ∧
      (updateSessionRow now "aborted" none x).completed_at = some now) := by
  unfold abortSwarmHandler
  rw [hfind]
  refine ⟨rfl, rfl, ?_⟩
  intro x hx hid
  refine ⟨?_, rfl, rfl, rfl⟩
  have hmem := updateSessionRow_mem_updateSwarmStatus sessions now sessionId "aborted" none
    x hx hid
  simpa using hmem

/-- Witness for C10: aborting a session that is already `completed` still
succeeds and overwrites the row. -/
theorem abort_success_overwrites_witness :
    (abortSwarmHandler [sampleCompletedSession] 9 "s1").2.1 = 200 ∧
    (abortSwarmHandler [sampleCompletedSession] 9 "s1").2.2 = some "aborted" ∧
    (∀ x ∈ [sampleCompletedSession], (x.session_id == "s1") = true →
      updateSessionRow 9 "aborted" none x ∈ (abortSwarmHandler [sampleCompletedSession] 9 "s1").1 ∧
      (updateSessionRow 9 "aborted" none x).status = "aborted" ∧
      (updateSessionRow 9 "aborted" none x).error_message = none ∧
      (updateSessionRow 9 "aborted" none x).completed_at = some 9) :=
  abort_success_overwrites [sampleCompletedSession] 9 "s1" sampleCompletedSession (by decide)

end ClaudeFlow
